import Mathlib

/-!
Verification of the IoT Room Automation System firmware and bridge.

The firmware (Arduino C++) manipulates byte-buffer strings; we embed an
Arduino `String` as a list of byte values (`Str := List Nat`), and embed
the side-effecting node loops/callbacks as pure functions returning the
list of observable actions (display writes, servo writes, delays, MQTT
publishes) they perform.
-/

/-- A byte-buffer string, as Arduino `String` stores it (ASCII bytes). -/
abbrev Str := List Nat

/-- Convert a Lean string literal to its ASCII byte list. -/
def str (s : String) : Str := s.data.map Char.toNat

/-- Cast of a C `int` to `unsigned int` (32-bit), as Arduino's `String`
    member functions do with negative indices. -/
def toU32 (i : Int) : Nat := (i % 4294967296).toNat

/-- First index at which byte `c` occurs in `l` (C `memchr`). -/
def findChar : Str → Nat → Option Nat
  | [], _ => none
  | b :: t, c => if b = c then some 0 else (findChar t c).map (· + 1)

/-- First index at which `pat` occurs as a contiguous substring of `l`
    (C `strstr`). -/
def findSub : Str → Str → Option Nat
  | l, pat =>
    if pat.isPrefixOf l then some 0
    else
      match l with
      | [] => none
      | _ :: t => (findSub t pat).map (· + 1)

/-- Arduino `String::indexOf(const String&)`: first occurrence index, or
    `-1` when absent. -/
def indexOfSub (l pat : Str) : Int :=
  match findSub l pat with
  | some k => (k : Int)
  | none => -1

/-- Arduino `String::indexOf(char, unsigned int fromIndex)`: the `Int`
    argument is cast to `unsigned int`; a start position at or past the end
    yields `-1`. -/
def indexOfCharFrom (l : Str) (c : Nat) (fromIdx : Int) : Int :=
  match findChar (l.drop (toU32 fromIdx)) c with
  | some k => ((k + toU32 fromIdx : Nat) : Int)
  | none => -1

/-- Arduino `String::substring(left, right)`: both arguments cast to
    `unsigned int`, swapped when out of order, clamped to the length. -/
def substr (l : Str) (left right : Int) : Str :=
  (l.drop (min (toU32 left) (toU32 right))).take
    (max (toU32 left) (toU32 right) - min (toU32 left) (toU32 right))

/-- ASCII `tolower`, as Arduino `String::toLowerCase` applies per byte. -/
def toLowerByte (b : Nat) : Nat := if 65 ≤ b ∧ b ≤ 90 then b + 32 else b

/-- Arduino `String::toLowerCase`. -/
def lowerStr (s : Str) : Str := s.map toLowerByte

/-- ASCII `toupper`, as Arduino `String::toUpperCase` applies per byte. -/
def toUpperByte (b : Nat) : Nat := if 97 ≤ b ∧ b ≤ 122 then b - 32 else b

/-- Arduino `String::toUpperCase`. -/
def upperStr (s : Str) : Str := s.map toUpperByte

/-- Lowercase hex digit byte for a nibble value (`'0'..'9'`, `'a'..'f'`). -/
def hexDigit (n : Nat) : Nat := if n < 10 then 48 + n else 87 + n

/-- Arduino `String(b, HEX)` for a byte value `b < 256`: minimal lowercase
    hex digits (one digit when `b < 16`, else two). -/
def hexLowerByte (b : Nat) : Str :=
  if b < 16 then [hexDigit b] else [hexDigit (b / 16), hexDigit (b % 16)]

/-- The DoorNode loop's UID-to-hex accumulation: per byte, a `"0"` pad when
    the byte is below `0x10`, then `String(uid[i], HEX)` (lowercase). -/
def uidHexRaw : List Nat → Str
  | [] => []
  | b :: t => ((if b < 16 then [48] else []) ++ hexLowerByte b) ++ uidHexRaw t

/-- `uidhex` as the DoorNode publishes it: the raw hex accumulation followed
    by `uidhex.toUpperCase()`. -/
def buildUidHex (uid : List Nat) : Str := upperStr (uidHexRaw uid)

/-! ## DoorNode (esp32_door.ino) -/

/-- Topic the DoorNode publishes AccessRequests on. -/
def TOPIC_REQ : Str := str "esp/door_lock/request"

/-- Topic the DoorNode receives AccessResponses on. -/
def TOPIC_RESP : Str := str "esp/door_lock/response"

/-- An observable action of the DoorNode firmware. -/
inductive DoorAct : Type
  | display : Str → DoorAct
  | servoWrite : Nat → DoorAct
  | delayMs : Nat → DoorAct
  | publish : Str → Str → DoorAct
deriving DecidableEq, Repr

/-- The DoorNode MQTT callback: on the response topic, a payload containing
    the substring `"granted"` (the key, quotes included) drives the servo to
    90, dwells 3000 ms, returns to 0; any other payload on that topic shows
    the denied display for 1500 ms. Other topics are ignored. -/
def door_callback (topic msg : Str) : List DoorAct :=
  if topic = TOPIC_RESP then
    if indexOfSub msg (str "\"granted\"") ≥ 0 then
      [.display (str "Access Granted"), .servoWrite 90, .delayMs 3000,
       .servoWrite 0, .display (str "Locked")]
    else
      [.display (str "Access Denied"), .delayMs 1500, .display (str "Scan Card")]
  else []

/-- The AccessRequest JSON the DoorNode builds from the uppercased UID hex. -/
def requestPayload (uidhex : Str) : Str :=
  str "\x7b\"device_id\":\"door_lock\",\"nfc_uid\":\"" ++ uidhex ++
    str "\",\"action\":\"unlock_request\"\x7d"

/-- The DoorNode loop body on a successful card read: display, publish the
    request, fixed 2000 ms debounce delay, reset display. No timeout wait,
    no state recording the outstanding request. -/
def door_scan (uid : List Nat) : List DoorAct :=
  [.display (str "Card read..."),
   .publish TOPIC_REQ (requestPayload (buildUidHex uid)),
   .delayMs 2000,
   .display (str "Scan Card")]

/-! ## LightNode (esp32_light.ino) -/

/-- Output pin levels `(PIN_LOW, PIN_MED, PIN_HIGH)`. -/
structure Pins : Type where
  pinLow : Bool
  pinMed : Bool
  pinHigh : Bool
deriving DecidableEq, Repr

/-- `apply_mode`: recognized modes drive exactly one channel pattern;
    any other string leaves the pins untouched. -/
def apply_mode (mode : Str) (p : Pins) : Pins :=
  if mode = str "off" then ⟨false, false, false⟩
  else if mode = str "low" then ⟨true, false, false⟩
  else if mode = str "med" then ⟨false, true, false⟩
  else if mode = str "high" then ⟨false, false, true⟩
  else p

/-- Status echo JSON the LightNode publishes after handling a command. -/
def statusMsg (mode : Str) : Str :=
  str "\x7b\"device_id\":\"light\",\"mode\":\"" ++ mode ++ str "\"\x7d"

/-- Topic the LightNode publishes status echoes on. -/
def TOPIC_STATUS : Str := str "esp/light/status"

/-- The LightNode MQTT callback, returning the new pin state, the new
    `current_mode`, and the list of `(topic, payload)` publishes. When the
    payload contains `"mode"` it extracts the quoted value after the
    following colon, lowercases it, stores it, applies it and echoes it;
    otherwise it does nothing. -/
def light_callback (p : Pins) (cur : Str) (msg : Str) : Pins × Str × List (Str × Str) :=
  let idx := indexOfSub msg (str "\"mode\"")
  if idx ≥ 0 then
    let colon := indexOfCharFrom msg 58 idx
    let quote1 := indexOfCharFrom msg 34 colon
    let quote2 := indexOfCharFrom msg 34 (quote1 + 1)
    let mode := lowerStr (substr msg (quote1 + 1) quote2)
    (apply_mode mode p, mode, [(TOPIC_STATUS, statusMsg mode)])
  else
    (p, cur, [])

/-- A well-formed light command message carrying mode value `m`. -/
def cmdMsg (m : Str) : Str := str "\x7b\"mode\":\"" ++ m ++ str "\"\x7d"

/-! ## SensorNode (esp32_room_sensor.ino) -/

/-- A DHT channel read: `none` models `NaN` (`isnan` true), `some q` a
    numeric reading. -/
abbrev DhtRead := Option ℚ

/-- The SensorNode loop body: when either channel reads `NaN` the cycle
    publishes nothing; otherwise it publishes the `(temperature, humidity)`
    record. -/
def sensorStep (t h : DhtRead) : Option (ℚ × ℚ) :=
  if t.isNone || h.isNone then none
  else
    match t, h with
    | some tv, some hv => some (tv, hv)
    | _, _ => none

/-! ## SyncBridge access evaluation

The repository contains no bridge code that evaluates access requests: the
README's `on_message` example only mirrors raw payloads into the store and
does not subscribe to request topics, normalizeCred credentials, consult the
allow-list, or publish responses. The access-evaluation path is therefore
modelled from the specification (§4.4). -/

/-- Whether a byte is an ASCII hex digit (`0-9`, `a-f`, `A-F`). -/
def isHexByte (b : Nat) : Bool :=
  decide ((48 ≤ b ∧ b ≤ 57) ∨ (97 ≤ b ∧ b ≤ 102) ∨ (65 ≤ b ∧ b ≤ 70))

/-- Modelled from the spec: bridge credential normalization ("uppercase,
    strip non-hex characters"), missing from the repository's bridge code. -/
def normalizeCred (s : Str) : Str := (upperStr s).filter isHexByte

/-- An access request as the bridge evaluates it. -/
structure AccessRequest : Type where
  device_id : Str
  credential : Str
deriving DecidableEq, Repr

/-- An access response as the bridge publishes it. -/
structure AccessResponse : Type where
  device_id : Str
  granted : Bool
deriving DecidableEq, Repr

/-- A per-device state record in the DeviceStateStore (door variant). -/
structure DeviceRec : Type where
  status : Str
  last_user : Str
deriving DecidableEq, Repr

/-- The DeviceStateStore, keyed by device identifier. -/
abbrev Store := Str → DeviceRec

/-- The response topic scoped to a device. -/
def respTopic (d : Str) : Str := str "access/" ++ d ++ str "/response"

/-- Modelled from the spec: the bridge's authorization decision — membership
    of the normalized credential in the AllowList. -/
def decideGranted (allow : List Str) (cred : Str) : Bool :=
  decide (normalizeCred cred ∈ allow)

/-- Modelled from the spec: the bridge's AccessRequest path (§4.4 steps 1-5),
    missing from the repository's bridge code. Normalizes the credential,
    decides membership, on grant records `status = Locked` and
    `last_user = credential` for the requesting device, and publishes exactly
    one response on the device's response topic. -/
def bridgeStep (allow : List Str) (store : Store) (req : AccessRequest) :
    Store × List (Str × AccessResponse) :=
  let granted := decideGranted allow req.credential
  let store' :=
    if granted then
      fun d => if d = req.device_id then
        ⟨str "Locked", normalizeCred req.credential⟩ else store d
    else store
  (store', [(respTopic req.device_id, ⟨req.device_id, granted⟩)])

/-- A concrete initial store used by the bridge witnesses. -/
def store0 : Store := fun _ => ⟨str "locked", str ""⟩

/-! ## Theorems -/

/-- C1. The claim states the DoorNode actuates the unlock iff the response's
    `granted` field is true. The code instead tests whether the payload
    contains the substring `"granted"` — the JSON key — so the explicit
    denial response `{"device_id":"door_lock","granted":false}` takes the
    granted branch: the servo is driven to the unlocked position for the
    3000 ms dwell and the display shows "Access Granted". -/
theorem door_unlocks_on_denied_response :
    door_callback TOPIC_RESP (str "\x7b\"device_id\":\"door_lock\",\"granted\":false\x7d")
      = [.display (str "Access Granted"), .servoWrite 90, .delayMs 3000,
         .servoWrite 0, .display (str "Locked")] ∧
    DoorAct.servoWrite 90 ∈
      door_callback TOPIC_RESP (str "\x7b\"device_id\":\"door_lock\",\"granted\":false\x7d") := by
  constructor
  · decide
  · decide

/-- C3. The AccessRequest the DoorNode publishes carries only `device_id`,
    `nfc_uid` and `action` — no request token of any kind (no substring
    `token` occurs in the payload) — and the response handler actuates the
    unlock for any payload containing the `"granted"` key, with no
    correlation check against an outstanding request. -/
theorem request_carries_no_token :
    findSub (requestPayload (buildUidHex [161, 178, 195, 212])) (str "token") = none ∧
    requestPayload (buildUidHex [161, 178, 195, 212])
      = str "\x7b\"device_id\":\"door_lock\",\"nfc_uid\":\"A1B2C3D4\",\"action\":\"unlock_request\"\x7d" ∧
    door_callback TOPIC_RESP (str "\x7b\"device_id\":\"door_lock\",\"granted\":true\x7d")
      = [.display (str "Access Granted"), .servoWrite 90, .delayMs 3000,
         .servoWrite 0, .display (str "Locked")] := by
  refine ⟨by decide, by decide, by decide⟩

/-- C4. After publishing a request the DoorNode's loop performs only a fixed
    2000 ms debounce delay and resets the display — it never transitions to
    a denied outcome on timeout — and the response callback actuates the
    unlock whenever a granted-keyed payload arrives, with no notion of
    elapsed time or deadline in its input. -/
theorem no_timeout_fail_closed :
    door_scan [161, 178, 195, 212]
      = [.display (str "Card read..."),
         .publish TOPIC_REQ (requestPayload (buildUidHex [161, 178, 195, 212])),
         .delayMs 2000,
         .display (str "Scan Card")] ∧
    DoorAct.display (str "Access Denied") ∉ door_scan [161, 178, 195, 212] ∧
    door_callback TOPIC_RESP (str "\x7b\"granted\":true,\"note\":\"arbitrarily late\"\x7d")
      = [.display (str "Access Granted"), .servoWrite 90, .delayMs 3000,
         .servoWrite 0, .display (str "Locked")] := by
  refine ⟨by decide, by decide, by decide⟩

/-- C9. For every response message the DoorNode acts on through its granted
    branch — in particular every granted response — the callback's action
    sequence is exactly: drive the servo to the unlocked position (90), dwell
    exactly 3000 ms, return to the locked position (0), deterministically and
    as a function of that single message alone. -/
theorem granted_dwell_sequence (msg : Str)
    (h : indexOfSub msg (str "\"granted\"") ≥ 0) :
    door_callback TOPIC_RESP msg
      = [.display (str "Access Granted"), .servoWrite 90, .delayMs 3000,
         .servoWrite 0, .display (str "Locked")] := by
  simp [door_callback, h]

/-- Witness for C9 at the canonical granted response. -/
theorem granted_dwell_sequence_witness :
    door_callback TOPIC_RESP (str "\x7b\"device_id\":\"door_lock\",\"granted\":true,\"reason\":\"ok\"\x7d")
      = [.display (str "Access Granted"), .servoWrite 90, .delayMs 3000,
         .servoWrite 0, .display (str "Locked")] :=
  granted_dwell_sequence
    (str "\x7b\"device_id\":\"door_lock\",\"granted\":true,\"reason\":\"ok\"\x7d") (by decide)

/-- C8. The SensorNode publishes nothing in a cycle where either channel
    reads as NaN, and every record it does publish carries the numeric
    temperature and humidity values actually read. -/
theorem sensor_publishes_only_valid :
    (∀ h : DhtRead, sensorStep none h = none) ∧
    (∀ t : DhtRead, sensorStep t none = none) ∧
    (∀ (t h : DhtRead) (p : ℚ × ℚ), sensorStep t h = some p →
      t = some p.1 ∧ h = some p.2) := by
  refine ⟨fun h => rfl, fun t => by simp [sensorStep], fun t h p hp => ?_⟩
  cases t with
  | none => simp [sensorStep] at hp
  | some tv =>
    cases h with
    | none => simp [sensorStep] at hp
    | some hv =>
      simp [sensorStep] at hp
      simp [← hp]

/-- Witness for C8 at a concrete valid sample. -/
theorem sensor_publishes_only_valid_witness :
    (some (25 : ℚ)) = some (((25 : ℚ), (60 : ℚ)).1) ∧
    (some (60 : ℚ)) = some (((25 : ℚ), (60 : ℚ)).2) :=
  sensor_publishes_only_valid.2.2 (some 25) (some 60) (25, 60) rfl

/-- C2. The bridge's access evaluation publishes exactly one response per
    accepted request, on the requesting device's response topic, and its
    `granted` value holds exactly when the normalized credential is a member
    of the AllowList at evaluation time. -/
theorem bridge_response_iff_allowlisted (allow : List Str) (store : Store)
    (req : AccessRequest) :
    (bridgeStep allow store req).2.length = 1 ∧
    ∀ p ∈ (bridgeStep allow store req).2,
      p.1 = respTopic req.device_id ∧
      (p.2.granted = true ↔ normalizeCred req.credential ∈ allow) := by
  refine ⟨rfl, fun p hp => ?_⟩
  simp only [bridgeStep, List.mem_singleton] at hp
  subst hp
  exact ⟨rfl, by simp [decideGranted]⟩

/-- Witness for C2 at the end-to-end example request. -/
theorem bridge_response_iff_allowlisted_witness :
    (respTopic (str "door_lock"),
      ({device_id := str "door_lock", granted := true} : AccessResponse)).1
        = respTopic (str "door_lock") ∧
    ((({device_id := str "door_lock", granted := true} : AccessResponse).granted = true)
      ↔ normalizeCred (str "A1B2C3D4") ∈ [str "A1B2C3D4"]) :=
  (bridge_response_iff_allowlisted [str "A1B2C3D4"] store0
      ⟨str "door_lock", str "A1B2C3D4"⟩).2
    (respTopic (str "door_lock"), ⟨str "door_lock", true⟩) (by decide)

/-- C6. The bridge leaves the whole store — in particular every `last_user`
    field — unchanged on a denied request; on a granted request it writes
    `status = Locked` and `last_user = credential` for the requesting device
    only, leaving every other device's record unchanged. -/
theorem last_user_frame (allow : List Str) (store : Store) (req : AccessRequest) :
    (decideGranted allow req.credential = false →
      (bridgeStep allow store req).1 = store) ∧
    (decideGranted allow req.credential = true →
      (bridgeStep allow store req).1 req.device_id
          = ⟨str "Locked", normalizeCred req.credential⟩ ∧
      ∀ d, d ≠ req.device_id → (bridgeStep allow store req).1 d = store d) := by
  constructor
  · intro h
    simp [bridgeStep, h]
  · intro h
    refine ⟨by simp [bridgeStep, h], fun d hd => by simp [bridgeStep, h, hd]⟩

/-- Witness for C6: `DEADBEEF` absent from the AllowList leaves the store
    unchanged; the granted `A1B2C3D4` request records Locked/last_user. -/
theorem last_user_frame_witness :
    (bridgeStep [str "A1B2C3D4"] store0 ⟨str "door_lock", str "DEADBEEF"⟩).1 = store0 ∧
    (bridgeStep [str "A1B2C3D4"] store0 ⟨str "door_lock", str "A1B2C3D4"⟩).1
        (str "door_lock")
      = ⟨str "Locked", normalizeCred (str "A1B2C3D4")⟩ :=
  ⟨(last_user_frame [str "A1B2C3D4"] store0 ⟨str "door_lock", str "DEADBEEF"⟩).1
      (by decide),
   ((last_user_frame [str "A1B2C3D4"] store0 ⟨str "door_lock", str "A1B2C3D4"⟩).2
      (by decide)).1⟩

/-! ### Normalization lemmas (C5) -/

/-- ASCII `toupper` is idempotent. -/
theorem upper_idem (b : Nat) : toUpperByte (toUpperByte b) = toUpperByte b := by
  unfold toUpperByte
  split_ifs <;> omega

/-- `toupper` preserves hex-digit-ness. -/
theorem isHex_upper (b : Nat) : isHexByte (toUpperByte b) = isHexByte b := by
  unfold isHexByte toUpperByte
  split_ifs with h
  · rw [decide_eq_decide]
    omega
  · rfl

/-- Unfolding of the bridge normalization on a cons cell. -/
theorem normalizeCred_cons (b : Nat) (t : Str) :
    normalizeCred (b :: t) =
      if isHexByte (toUpperByte b) then toUpperByte b :: normalizeCred t
      else normalizeCred t := by
  simp [normalizeCred, upperStr, List.filter_cons]

/-- The bridge normalization is idempotent. -/
theorem normalizeCred_idem (s : Str) :
    normalizeCred (normalizeCred s) = normalizeCred s := by
  induction s with
  | nil => rfl
  | cons b t ih =>
    rw [normalizeCred_cons]
    by_cases h : isHexByte (toUpperByte b) = true
    · simp only [h, if_true]
      rw [normalizeCred_cons, upper_idem]
      simp only [h, if_true, ih]
    · simp only [Bool.not_eq_true] at h
      simp only [h, Bool.false_eq_true, if_false, ih]

/-- Normalization fixes any uppercased all-hex string. -/
theorem normalizeCred_of_hex (r : Str) (h : ∀ x ∈ r, isHexByte x = true) :
    normalizeCred (upperStr r) = upperStr r := by
  induction r with
  | nil => rfl
  | cons b t ih =>
    have hb := h b (List.mem_cons_self b t)
    have ht := ih fun x hx => h x (List.mem_cons_of_mem b hx)
    show normalizeCred (toUpperByte b :: upperStr t) = toUpperByte b :: upperStr t
    rw [normalizeCred_cons, upper_idem, isHex_upper, hb]
    simp [ht]

/-- Hex digit bytes are hex. -/
theorem hexDigit_isHex (n : Nat) (h : n < 16) : isHexByte (hexDigit n) = true := by
  unfold isHexByte hexDigit
  split_ifs <;> simp <;> omega

/-- Every byte of the DoorNode's raw UID hex accumulation is a hex digit. -/
theorem uidHexRaw_hex (uid : List Nat) (h : ∀ b ∈ uid, b < 256) :
    ∀ x ∈ uidHexRaw uid, isHexByte x = true := by
  induction uid with
  | nil => intro x hx; cases hx
  | cons b t ih =>
    intro x hx
    have hb := h b (List.mem_cons_self b t)
    have ht := fun c hc => h c (List.mem_cons_of_mem b hc)
    simp only [uidHexRaw, List.append_assoc, List.mem_append] at hx
    rcases hx with hx | hx | hx
    · by_cases hb16 : b < 16
      · rw [if_pos hb16] at hx
        simp only [List.mem_singleton] at hx
        subst hx
        decide
      · rw [if_neg hb16] at hx
        cases hx
    · unfold hexLowerByte at hx
      by_cases hb16 : b < 16
      · rw [if_pos hb16] at hx
        simp only [List.mem_singleton] at hx
        subst hx
        exact hexDigit_isHex b hb16
      · rw [if_neg hb16] at hx
        simp only [List.mem_cons, List.not_mem_nil, or_false] at hx
        rcases hx with hx | hx
        · subst hx
          exact hexDigit_isHex (b / 16) (by omega)
        · subst hx
          exact hexDigit_isHex (b % 16) (by omega)
    · exact ih ht x hx

/-- C5. Credential normalization is consistent across the system: the bridge
    normalization is idempotent, the credential string the DoorNode publishes
    is already in normal form (so both sides agree on it), and any two
    encodings with the same normal form — lowercase, mixed-case, or
    separator-containing — receive identical authorization outcomes. -/
theorem normalization_consistent :
    (∀ s : Str, normalizeCred (normalizeCred s) = normalizeCred s) ∧
    (∀ uid : List Nat, (∀ b ∈ uid, b < 256) →
      normalizeCred (buildUidHex uid) = buildUidHex uid) ∧
    (∀ (allow : List Str) (s₁ s₂ : Str), normalizeCred s₁ = normalizeCred s₂ →
      decideGranted allow s₁ = decideGranted allow s₂) := by
  refine ⟨normalizeCred_idem, fun uid h => ?_, fun allow s₁ s₂ h => ?_⟩
  · exact normalizeCred_of_hex (uidHexRaw uid) (uidHexRaw_hex uid h)
  · unfold decideGranted
    rw [h]

/-! ### LightNode parsing lemmas (C7, C10) -/

/-- The command message, exposed as an explicit byte chain. -/
theorem cmdMsg_eq (m : Str) :
    cmdMsg m = 123 :: 34 :: 109 :: 111 :: 100 :: 101 :: 34 :: 58 :: 34 ::
      (m ++ [34, 125]) := rfl

/-- `memchr` past a block not containing the byte. -/
theorem findChar_append (m l : Str) (c : Nat) (h : c ∉ m) :
    findChar (m ++ l) c = (findChar l c).map (· + m.length) := by
  induction m with
  | nil =>
    simp only [List.nil_append, List.length_nil]
    cases findChar l c <;> simp
  | cons b t ih =>
    have hb : ¬b = c := fun e => h (e ▸ List.mem_cons_self b t)
    rw [List.cons_append, findChar, if_neg hb,
      ih fun hc => h (List.mem_cons_of_mem b hc)]
    cases findChar l c with
    | none => rfl
    | some k =>
      simp only [Option.map_some', List.length_cons, Option.some.injEq]
      omega

/-- The cast through `unsigned int` is the identity on small naturals. -/
theorem toU32_ofNat (n : Nat) (h : n < 4294967296) : toU32 ((n : Nat) : Int) = n := by
  unfold toU32
  omega

/-- The second quote search of the LightNode parser lands exactly on the
    closing quote of the mode value. -/
theorem light_quote2 (m : Str) (hq : 34 ∉ m) :
    indexOfCharFrom (cmdMsg m) 34 (8 + 1) = ((m.length + 9 : Nat) : Int) := by
  have hdrop : (cmdMsg m).drop 9 = m ++ [34, 125] := rfl
  have hfc : findChar [34, 125] 34 = some 0 := rfl
  have h9 : toU32 (8 + 1) = 9 := rfl
  simp only [indexOfCharFrom, h9, hdrop, findChar_append m [34, 125] 34 hq, hfc,
    Option.map_some']
  omega

/-- The extracted substring of the LightNode parser is the mode value. -/
theorem light_substr (m : Str) (hlen : m.length < 4294967280) :
    substr (cmdMsg m) (8 + 1) ((m.length + 9 : Nat) : Int) = m := by
  unfold substr
  have h1 : toU32 (8 + 1) = 9 := rfl
  have h2 : toU32 ((m.length + 9 : Nat) : Int) = m.length + 9 :=
    toU32_ofNat (m.length + 9) (by omega)
  rw [h1, h2]
  have hmin : min 9 (m.length + 9) = 9 := by omega
  have hmax : max 9 (m.length + 9) = m.length + 9 := by omega
  rw [hmin, hmax]
  have hdrop : (cmdMsg m).drop 9 = m ++ [34, 125] := rfl
  rw [hdrop]
  have hlen9 : m.length + 9 - 9 = m.length := by omega
  rw [hlen9]
  exact List.take_left m [34, 125]

/-- Full evaluation of the LightNode callback on a well-formed command
    carrying a quote-free mode value `m`: the mode is parsed, lowercased,
    stored, applied to the pins, and echoed. -/
theorem light_parse (p : Pins) (cur : Str) (m : Str) (hq : 34 ∉ m)
    (hlen : m.length < 4294967280) :
    light_callback p cur (cmdMsg m)
      = (apply_mode (lowerStr m) p, lowerStr m,
         [(TOPIC_STATUS, statusMsg (lowerStr m))]) := by
  have hidx : indexOfSub (cmdMsg m) (str "\"mode\"") = 1 := rfl
  have hcolon : indexOfCharFrom (cmdMsg m) 58 1 = 7 := rfl
  have hq1 : indexOfCharFrom (cmdMsg m) 34 7 = 8 := rfl
  simp only [light_callback, hidx, hcolon, hq1, light_quote2 m hq,
    light_substr m hlen]
  norm_num

/-- Bytes of a lowercased string: the lowercase map fixes `"` and is
    injective into it. -/
theorem toLowerByte_eq_quote (b : Nat) : toLowerByte b = 34 ↔ b = 34 := by
  unfold toLowerByte
  split_ifs <;> omega

/-- Lowercasing preserves quote-freeness. -/
theorem lowerStr_quote_free (m : Str) (hq : 34 ∉ m) : 34 ∉ lowerStr m := by
  intro hmem
  rcases List.mem_map.mp hmem with ⟨b, hb, he⟩
  exact hq ((toLowerByte_eq_quote b).mp he ▸ hb)

/-- ASCII `tolower` is idempotent. -/
theorem lower_idem (b : Nat) : toLowerByte (toLowerByte b) = toLowerByte b := by
  unfold toLowerByte
  split_ifs <;> omega

/-- `String::toLowerCase` is idempotent. -/
theorem lowerStr_idem (m : Str) : lowerStr (lowerStr m) = lowerStr m := by
  unfold lowerStr
  rw [List.map_map]
  exact List.map_congr_left fun b _ => lower_idem b

/-- Witness for C5: the separator-containing lowercase encoding
    `"a1:b2:c3:d4"` and the DoorNode's `"A1B2C3D4"` get the same decision. -/
theorem normalization_consistent_witness :
    normalizeCred (normalizeCred (str "a1:b2:c3:d4")) = normalizeCred (str "a1:b2:c3:d4") ∧
    normalizeCred (buildUidHex [161, 178, 195, 212]) = buildUidHex [161, 178, 195, 212] ∧
    decideGranted [str "A1B2C3D4"] (str "a1:b2:c3:d4")
      = decideGranted [str "A1B2C3D4"] (str "A1B2C3D4") :=
  ⟨normalization_consistent.1 (str "a1:b2:c3:d4"),
   normalization_consistent.2.1 [161, 178, 195, 212] (by decide),
   normalization_consistent.2.2 [str "A1B2C3D4"] (str "a1:b2:c3:d4")
     (str "A1B2C3D4") (by decide)⟩

/-- C7 counterexample. The claim states an unrecognized mode value produces
    no status echo and no stored-mode change. On the command
    `\x7b"mode":"blah"\x7d` the LightNode leaves the pins alone but overwrites
    `current_mode` with `"blah"` and publishes a status echo carrying it. -/
theorem light_echoes_unknown_mode :
    light_callback ⟨false, false, false⟩ (str "off") (cmdMsg (str "blah"))
      = (⟨false, false, false⟩, str "blah",
         [(TOPIC_STATUS, statusMsg (str "blah"))]) ∧
    (light_callback ⟨false, false, false⟩ (str "off") (cmdMsg (str "blah"))).2.2 ≠ [] ∧
    (light_callback ⟨false, false, false⟩ (str "off") (cmdMsg (str "blah"))).2.1
      ≠ str "off" := by
  refine ⟨by decide, by decide, by decide⟩

/-- C7 amended. A command whose lowercased mode value is unrecognized causes
    no actuation (the pins are unchanged) and no crash, but the LightNode
    stores the lowercased mode and publishes a status echo carrying it; a
    message without a `"mode"` key is dropped silently — no actuation, no
    echo, no mode change. -/
theorem light_unknown_mode_fail_static :
    (∀ (p : Pins) (cur m : Str), 34 ∉ m → m.length < 4294967280 →
      lowerStr m ≠ str "off" → lowerStr m ≠ str "low" →
      lowerStr m ≠ str "med" → lowerStr m ≠ str "high" →
      light_callback p cur (cmdMsg m)
        = (p, lowerStr m, [(TOPIC_STATUS, statusMsg (lowerStr m))])) ∧
    (∀ (p : Pins) (cur msg : Str), findSub msg (str "\"mode\"") = none →
      light_callback p cur msg = (p, cur, [])) := by
  constructor
  · intro p cur m hq hlen h1 h2 h3 h4
    rw [light_parse p cur m hq hlen]
    unfold apply_mode
    rw [if_neg h1, if_neg h2, if_neg h3, if_neg h4]
  · intro p cur msg hns
    simp only [light_callback, indexOfSub, hns]
    norm_num

/-- Witness for C7 amended: the unknown mode `"blah"` and a key-free
    payload `"hello"`. -/
theorem light_unknown_mode_fail_static_witness :
    light_callback ⟨false, false, false⟩ (str "off") (cmdMsg (str "blah"))
      = (⟨false, false, false⟩, lowerStr (str "blah"),
         [(TOPIC_STATUS, statusMsg (lowerStr (str "blah")))]) ∧
    light_callback ⟨false, false, false⟩ (str "off") (str "hello")
      = (⟨false, false, false⟩, str "off", []) :=
  ⟨light_unknown_mode_fail_static.1 ⟨false, false, false⟩ (str "off") (str "blah")
      (by decide) (by decide) (by decide) (by decide) (by decide) (by decide),
   light_unknown_mode_fail_static.2 ⟨false, false, false⟩ (str "off") (str "hello")
      (by decide)⟩

/-- C10. The LightNode lowercases the parsed mode before matching: a command
    carrying mode value `m` and one carrying `lowercase(m)` produce identical
    pin actuation, stored mode, and publishes, and the status echo always
    carries the lowercase form. -/
theorem light_case_insensitive (p : Pins) (cur m : Str) (hq : 34 ∉ m)
    (hlen : m.length < 4294967280) :
    light_callback p cur (cmdMsg m) = light_callback p cur (cmdMsg (lowerStr m)) ∧
    (light_callback p cur (cmdMsg m)).2.2
      = [(TOPIC_STATUS, statusMsg (lowerStr m))] := by
  have hq' : 34 ∉ lowerStr m := lowerStr_quote_free m hq
  have hlen' : (lowerStr m).length < 4294967280 := by
    unfold lowerStr
    rw [List.length_map]
    exact hlen
  rw [light_parse p cur m hq hlen, light_parse p cur (lowerStr m) hq' hlen',
    lowerStr_idem]
  exact ⟨rfl, rfl⟩

/-- Witness for C10 at the mixed-case command `{"mode":"MeD"}`. -/
theorem light_case_insensitive_witness :
    light_callback ⟨false, false, false⟩ (str "off") (cmdMsg (str "MeD"))
      = light_callback ⟨false, false, false⟩ (str "off")
          (cmdMsg (lowerStr (str "MeD"))) ∧
    (light_callback ⟨false, false, false⟩ (str "off") (cmdMsg (str "MeD"))).2.2
      = [(TOPIC_STATUS, statusMsg (lowerStr (str "MeD")))] :=
  light_case_insensitive ⟨false, false, false⟩ (str "off") (str "MeD")
    (by decide) (by decide)
